import Mathlib

/-!
Shallow embedding of the dynamic behaviour of `src/index.tsx` of the
ChristTech portfolio page: the GitHub project gallery loader
(`fetchGitHubProjects`), the assistant chat submit handler
(`AIChat.handleSend`) and the contact-form submit handler
(`Contact.handleSubmit`).

JavaScript strings become `String`, arrays become `List`, and the
truthiness test on a string (`s ? … : …`, `s || d`) becomes an
emptiness test, since the only falsy strings are `""` (and absent
fields, modelled as `""` or `Option`).  The nondeterministic shuffle
`validRepos.sort(() => Math.random() - 0.5)` is modelled by
quantifying over an arbitrary permutation of the filtered list (the
comparator is inconsistent, but `Array.prototype.sort` always returns
some permutation of its input).  The asynchronous React state updates
of the two handlers are sequentialised into pure state-transition
functions, with the outcome of the external call passed in as data.
-/

/-- A single quote character, kept out of string literals. -/
def apos : String := String.mk [Char.ofNat 39]

/-- Helper for `jsIncludes`: JavaScript `s.includes(pat)` on char lists
(substring occurrence anywhere, the empty pattern always matches). -/
def jsIncludesAux (pat : List Char) : List Char → Bool
  | [] => pat.isEmpty
  | c :: cs => pat.isPrefixOf (c :: cs) || jsIncludesAux pat cs

/-- JavaScript `s.includes(pat)` (String.prototype.includes with a string
argument): does `pat` occur as a contiguous substring of `s`? -/
def jsIncludes (s pat : String) : Bool :=
  jsIncludesAux pat.data s.data

/-- Helper for `jsReplace`: replace the first occurrence of `pat` by
`rep`, as JavaScript `s.replace(pat, rep)` does for a string pattern. -/
def jsReplaceAux (pat rep : List Char) : List Char → List Char
  | [] => if pat.isEmpty then rep else []
  | c :: cs =>
    if pat.isPrefixOf (c :: cs) then rep ++ (c :: cs).drop pat.length
    else c :: jsReplaceAux pat rep cs

/-- JavaScript `s.replace(pat, rep)` with a string pattern: only the
first occurrence is replaced. -/
def jsReplace (s pat rep : String) : String :=
  String.mk (jsReplaceAux pat.data rep.data s.data)

/-- JavaScript `s || fallback` on strings: `""` is the only falsy
string, so an empty string selects the fallback. -/
def jsOr (s fallback : String) : String :=
  if s.isEmpty then fallback else s

/-- JavaScript `s.split(sep)` for a single-character separator, on char
lists: adjacent separators yield empty pieces and the empty string
yields one empty piece, as in JavaScript. -/
def splitOnChar (sep : Char) : List Char → List (List Char)
  | [] => [[]]
  | c :: cs =>
    if c = sep then [] :: splitOnChar sep cs
    else
      match splitOnChar sep cs with
      | [] => [[c]]
      | w :: ws => (c :: w) :: ws

/-- JavaScript `s.trim()`: drop whitespace from both ends. -/
def jsTrim (s : String) : String :=
  String.mk (((s.data.dropWhile Char.isWhitespace).reverse.dropWhile Char.isWhitespace).reverse)

/-- JavaScript `word.charAt(0).toUpperCase() + word.slice(1)`
(src/index.tsx line 443).  On the empty word both parts are empty. -/
def capitalizeWord (w : String) : String :=
  match w.data with
  | [] => ""
  | c :: cs => String.mk (c.toUpper :: cs)

/-- The title mapping of src/index.tsx line 443:
`repo.name.split('-').map(capitalize).join(' ')`. -/
def humanizeTitle (name : String) : String :=
  String.intercalate " " (((splitOnChar (Char.ofNat 45) name.data).map String.mk).map capitalizeWord)

/-- The `GitHubRepo` interface of src/index.tsx lines 41-50.  Fields that
the GitHub API may return as `null` (`description`, `homepage`,
`language`) are modelled as possibly-empty strings; the code only ever
tests their truthiness, and `""` is falsy exactly like `null`. -/
structure GitHubRepo where
  name : String
  description : String
  html_url : String
  homepage : String
  topics : List String
  stargazers_count : Nat
  language : String
  updated_at : String
deriving Repr, DecidableEq

/-- The `Project` card record of src/index.tsx lines 28-39, restricted to
the fields the mapping in `fetchGitHubProjects` actually populates. -/
structure Project where
  title : String
  category : String
  description : String
  image : String
  tags : List String
  link : String
  github : String
  stars : Nat
  language : String
  updated : String
deriving Repr, DecidableEq

/-- The filter predicate of src/index.tsx lines 431-434: keep a repo iff
its name does not contain the handle and its description is truthy. -/
def qualifiesRepo (repo : GitHubRepo) : Bool :=
  !(jsIncludes repo.name "ChristTech") && !repo.description.isEmpty

/-- `validRepos` of src/index.tsx line 431: the qualifying sublist of the
fetched batch, in fetch order. -/
def validRepos (repos : List GitHubRepo) : List GitHubRepo :=
  repos.filter qualifiesRepo

/-- The per-repo card mapping of src/index.tsx lines 442-453.  `fmt`
stands for `(s) => new Date(s).toLocaleDateString()`, whose output
depends on the runtime locale; every result below holds for an
arbitrary `fmt`. -/
def mapRepo (fmt : String → String) (repo : GitHubRepo) : Project :=
  { title := humanizeTitle repo.name
  , category := jsOr repo.language "Open Source"
  , description := jsOr repo.description "An innovative project showcasing technical excellence."
  , image := "https://opengraph.githubassets.com/1/" ++ jsReplace repo.html_url "https://github.com/" ""
  , tags := if repo.topics.length > 0 then repo.topics.take 4 else [jsOr repo.language "Code"]
  , link := jsOr repo.homepage repo.html_url
  , github := repo.html_url
  , stars := repo.stargazers_count
  , language := repo.language
  , updated := fmt repo.updated_at }

/-- `mappedProjects` of src/index.tsx lines 440-453: take the first six
of the shuffled qualifying repos and map each to a card.  The shuffled
list is a caller-supplied permutation of `validRepos` (the random
comparator sort of line 437). -/
def galleryCards (fmt : String → String) (shuffled : List GitHubRepo) : List Project :=
  (shuffled.take 6).map (mapRepo fmt)

/-- The chat message role tag of src/index.tsx line 53. -/
inductive Role where
  | user
  | ai
deriving Repr, DecidableEq

/-- The `Message` record of src/index.tsx lines 52-55. -/
structure Message where
  role : Role
  text : String
deriving Repr, DecidableEq

/-- The local state of the `AIChat` component that `handleSend` touches:
`messages`, `input` and `isTyping` (src/index.tsx lines 90-94). -/
structure ChatState where
  messages : List Message
  input : String
  isTyping : Bool
deriving Repr, DecidableEq

/-- The text of the seeded introductory assistant message
(src/index.tsx line 91). -/
def seedText : String :=
  "Hi! I" ++ apos ++ "m CHRISTTech" ++ apos ++ "s AI assistant. Ask me anything about machine learning, robotics projects, or tech stack!"

/-- The seeded introductory assistant message (src/index.tsx line 91). -/
def seedMessage : Message :=
  { role := Role.ai, text := seedText }

/-- The initial `AIChat` state (src/index.tsx lines 90-94). -/
def chatInit : ChatState :=
  { messages := [seedMessage], input := "", isTyping := false }

/-- The input `onChange` handler (src/index.tsx line 176): overwrite the
input field, touching nothing else. -/
def setChatInput (st : ChatState) (s : String) : ChatState :=
  { st with input := s }

/-- The fallback assistant text substituted when the generation call
returns empty text (src/index.tsx line 130). -/
def glitchFallback : String :=
  "I" ++ apos ++ "m having a little glitch. Can you try again?"

/-- The fallback assistant text appended when the generation call throws
(src/index.tsx line 134). -/
def connectionFallback : String :=
  "Connection issues. Alex must be coding something big!"

/-- Lines 106-109 of src/index.tsx: the synchronous head of an accepted
`handleSend` — clear the input, append the trimmed user message, raise
`isTyping` — all before the generation request resolves. -/
def acceptSend (st : ChatState) : ChatState :=
  { messages := st.messages ++ [{ role := Role.user, text := jsTrim st.input }]
  , input := ""
  , isTyping := true }

/-- Lines 111-137 of src/index.tsx: resolution of an accepted send.
`apiKey` is `process.env.API_KEY` (`none` for absent); a missing or
empty key throws before the call is made (lines 112-115).  `call` is
the outcome of the generation request: `Except.error` for any thrown
error (network, malformed response, …), `Except.ok text` for a
successful response carrying `text`.  The `catch` appends the fixed
connection fallback, an empty success text is substituted by the glitch
fallback, and the `finally` clears `isTyping` on every path. -/
def resolveSend (st : ChatState) (apiKey : Option String) (call : Except String String) : ChatState :=
  let outcome : Except String String :=
    match apiKey with
    | none => Except.error "API key is missing"
    | some k => if k.isEmpty then Except.error "API key is missing" else call
  match outcome with
  | Except.ok text =>
    { st with
      messages := st.messages ++ [{ role := Role.ai, text := if text.isEmpty then glitchFallback else text }]
    , isTyping := false }
  | Except.error _ =>
    { st with
      messages := st.messages ++ [{ role := Role.ai, text := connectionFallback }]
    , isTyping := false }

/-- `handleSend` of src/index.tsx lines 103-138: a no-op when the
trimmed input is empty or a request is already in flight (line 104),
otherwise the accepted-send head followed by resolution. -/
def handleSend (st : ChatState) (apiKey : Option String) (call : Except String String) : ChatState :=
  if (jsTrim st.input).isEmpty || st.isTyping then st
  else resolveSend (acceptSend st) apiKey call

/-- The `formState` mode of the `Contact` component (src/index.tsx
line 568). -/
inductive FormStatus where
  | idle
  | loading
  | success
  | error
deriving Repr, DecidableEq

/-- The three user-entered contact-form fields (src/index.tsx
lines 682-707). -/
structure ContactFields where
  name : String
  email : String
  message : String
deriving Repr, DecidableEq

/-- The `Contact` component state that `handleSubmit` touches:
`formState`, `errorMessage` and the native form fields (cleared by
`formRef.current.reset()`). -/
structure ContactState where
  formState : FormStatus
  errorMessage : String
  fields : ContactFields
deriving Repr, DecidableEq

/-- The outcome of the relay POST of src/index.tsx lines 588-593:
either a parsed JSON body with a `success` flag and an optional
`message` string, or a thrown network/parse error. -/
inductive RelayOutcome where
  | response (success : Bool) (message : Option String)
  | thrown
deriving Repr, DecidableEq

/-- The fallback error text of src/index.tsx line 602, used when the
relay reports failure without a (truthy) message. -/
def genericFailureText : String :=
  "Something went wrong. Please try again."

/-- The error text of src/index.tsx line 606, used when the POST or the
JSON parse throws. -/
def networkErrorText : String :=
  "Network error. Please check your connection and try again."

/-- All-empty form fields, the result of `formRef.current.reset()`. -/
def emptyFields : ContactFields :=
  { name := "", email := "", message := "" }

/-- `handleSubmit` of src/index.tsx lines 572-609: enter `loading` and
clear the error text, then branch on the relay outcome. `data.message`
is an `Option String`, and the `data.message || …` fallback also fires
on an empty (falsy) message string. -/
def handleSubmit (st : ContactState) (outcome : RelayOutcome) : ContactState :=
  let st0 : ContactState := { st with formState := FormStatus.loading, errorMessage := "" }
  match outcome with
  | RelayOutcome.response true _ =>
    { st0 with formState := FormStatus.success, fields := emptyFields }
  | RelayOutcome.response false msg =>
    { st0 with
      formState := FormStatus.error
    , errorMessage :=
        match msg with
        | some m => if m.isEmpty then genericFailureText else m
        | none => genericFailureText }
  | RelayOutcome.thrown =>
    { st0 with formState := FormStatus.error, errorMessage := networkErrorText }

/-- The first repository of the end-to-end gallery scenario of the spec:
the profile/meta repository. -/
def repoChristTech : GitHubRepo :=
  { name := "ChristTech", description := "profile", html_url := "", homepage := ""
  , topics := [], stargazers_count := 0, language := "", updated_at := "" }

/-- The second repository of the end-to-end gallery scenario: empty
description. -/
def repoRoboArm : GitHubRepo :=
  { name := "robo-arm", description := "", html_url := "", homepage := ""
  , topics := [], stargazers_count := 0, language := "", updated_at := "" }

/-- The third repository of the end-to-end gallery scenario. -/
def repoVisionApp : GitHubRepo :=
  { name := "vision-app", description := "CV pipeline", html_url := "", homepage := ""
  , topics := ["cv", "python"], stargazers_count := 0, language := "", updated_at := "" }

/-- The fetched batch of the end-to-end gallery scenario. -/
def scenarioRepos : List GitHubRepo :=
  [repoChristTech, repoRoboArm, repoVisionApp]

/-- A qualifying demo repository with the given name. -/
def demoRepo (n : String) : GitHubRepo :=
  { name := n, description := "demo", html_url := "", homepage := ""
  , topics := [], stargazers_count := 0, language := "", updated_at := "" }

/-- A demo batch with seven qualifying repositories (more than the cap). -/
def demoBatch : List GitHubRepo :=
  [demoRepo "r1", demoRepo "r2", demoRepo "r3", demoRepo "r4", demoRepo "r5",
   demoRepo "r6", demoRepo "r7"]

/-- A demo repository used to test card derivation. -/
def demoRepoA : GitHubRepo :=
  { name := "vision-app", description := "CV", html_url := "https://github.com/ChristTech/vision-app"
  , homepage := "", topics := ["cv"], stargazers_count := 3, language := "Python"
  , updated_at := "2024-01-01" }

/-- A second demo repository sharing `demoRepoA`'s canonical URL. -/
def demoRepoB : GitHubRepo :=
  { name := "vision-app-mirror", description := "CV mirror"
  , html_url := "https://github.com/ChristTech/vision-app"
  , homepage := "https://example.com", topics := [], stargazers_count := 0, language := ""
  , updated_at := "2024-02-02" }

/-- Demo contact-form field values. -/
def demoFields : ContactFields :=
  { name := "Ada", email := "ada@example.com", message := "hi" }

/-- A demo contact-form state with filled fields. -/
def demoContact : ContactState :=
  { formState := FormStatus.idle, errorMessage := "", fields := demoFields }

/-- Unpacking the filter predicate: a qualifying repo has a name free of
the handle and a non-empty description. -/
theorem qualifiesRepo_spec {repo : GitHubRepo} (h : qualifiesRepo repo = true) :
    jsIncludes repo.name "ChristTech" = false ∧ repo.description ≠ "" := by
  simp only [qualifiesRepo, Bool.and_eq_true, Bool.not_eq_true'] at h
  refine ⟨h.1, fun heq => ?_⟩
  rw [heq] at h
  exact absurd h.2 (by decide)

/-- The string fallback `s || d` selects `d` exactly on the empty string. -/
theorem jsOr_eq_ite (s fallback : String) :
    jsOr s fallback = if s = "" then fallback else s := by
  rw [jsOr]
  by_cases h : s = ""
  · rw [if_pos ((String.isEmpty_iff s).mpr h), if_pos h]
  · rw [if_neg (fun hh => h ((String.isEmpty_iff s).mp hh)), if_neg h]

/-- A non-empty string has `isEmpty = false`. -/
theorem isEmpty_false_of_ne {s : String} (h : s ≠ "") : s.isEmpty = false := by
  cases hh : s.isEmpty with
  | false => rfl
  | true => exact absurd ((String.isEmpty_iff s).mp hh) h

/-- Resolution of a send appends exactly one assistant message to the
transcript, on every path. -/
theorem resolveSend_appends (st : ChatState) (apiKey : Option String)
    (call : Except String String) :
    ∃ m : Message, (resolveSend st apiKey call).messages = st.messages ++ [m] := by
  rcases apiKey with _ | k
  · exact ⟨{ role := Role.ai, text := connectionFallback }, rfl⟩
  · rcases hk : k.isEmpty with _ | _
    · rcases call with e | text
      · exact ⟨{ role := Role.ai, text := connectionFallback }, by simp [resolveSend, hk]⟩
      · exact ⟨{ role := Role.ai, text := if text.isEmpty then glitchFallback else text },
          by simp [resolveSend, hk]⟩
    · exact ⟨{ role := Role.ai, text := connectionFallback }, by simp [resolveSend, hk]⟩

/-- Resolution of a send clears the typing flag on every path. -/
theorem resolveSend_isTyping (st : ChatState) (apiKey : Option String)
    (call : Except String String) :
    (resolveSend st apiKey call).isTyping = false := by
  rcases apiKey with _ | k
  · rfl
  · rcases hk : k.isEmpty with _ | _
    · rcases call with e | text
      · simp [resolveSend, hk]
      · simp [resolveSend, hk]
    · simp [resolveSend, hk]

/-- Resolution of a send never touches the input field. -/
theorem resolveSend_input (st : ChatState) (apiKey : Option String)
    (call : Except String String) :
    (resolveSend st apiKey call).input = st.input := by
  rcases apiKey with _ | k
  · rfl
  · rcases hk : k.isEmpty with _ | _
    · rcases call with e | text
      · simp [resolveSend, hk]
      · simp [resolveSend, hk]
    · simp [resolveSend, hk]

/-- An accepted submit passes the in-flight guard. -/
theorem handleSend_accepted {st : ChatState} (hin : jsTrim st.input ≠ "")
    (hfl : st.isTyping = false) (apiKey : Option String) (call : Except String String) :
    handleSend st apiKey call = resolveSend (acceptSend st) apiKey call := by
  have h1 : (jsTrim st.input).isEmpty = false := isEmpty_false_of_ne hin
  simp only [handleSend, h1, hfl, Bool.or_self, Bool.false_eq_true, if_false]

/-- C1. Gallery selection: for every fetched batch and every shuffle of
its qualifying repositories, every produced card derives from a
qualifying repository (non-empty description, name not containing the
handle), at most six cards are produced, and when more than six
repositories qualify exactly six cards are produced. -/
theorem gallery_selection (fmt : String → String) (repos shuffled : List GitHubRepo)
    (hperm : shuffled.Perm (validRepos repos)) :
    (∀ card ∈ galleryCards fmt shuffled, ∃ repo ∈ validRepos repos,
        card = mapRepo fmt repo
        ∧ jsIncludes repo.name "ChristTech" = false
        ∧ repo.description ≠ "")
    ∧ (galleryCards fmt shuffled).length ≤ 6
    ∧ (6 < (validRepos repos).length → (galleryCards fmt shuffled).length = 6) := by
  have hlen : (galleryCards fmt shuffled).length = min 6 shuffled.length := by
    simp [galleryCards]
  refine ⟨?_, ?_, ?_⟩
  · intro card hcard
    rcases List.mem_map.mp hcard with ⟨repo, hrepo, rfl⟩
    have hmem : repo ∈ validRepos repos :=
      hperm.mem_iff.mp (List.mem_of_mem_take hrepo)
    have hq := (List.mem_filter.mp hmem).2
    exact ⟨repo, hmem, rfl, qualifiesRepo_spec hq⟩
  · rw [hlen]; exact Nat.min_le_left _ _
  · intro hmore
    rw [hlen, hperm.length_eq]
    omega

/-- C1 witness: on the seven-repository demo batch (shuffled by the
identity permutation) exactly six cards are produced. -/
theorem gallery_selection_witness :
    (galleryCards id (validRepos demoBatch)).length = 6 :=
  (gallery_selection id demoBatch (validRepos demoBatch) (List.Perm.refl _)).2.2 (by decide)

/-- C9. Implicit: when at most six repositories qualify, a load produces
exactly one card per qualifying repository — the card multiset is the
image of the whole qualifying set, nothing is dropped by the
shuffle-and-take step. -/
theorem gallery_count_below_cap (fmt : String → String) (repos shuffled : List GitHubRepo)
    (hperm : shuffled.Perm (validRepos repos))
    (hlen : (validRepos repos).length ≤ 6) :
    (galleryCards fmt shuffled).length = (validRepos repos).length
    ∧ (galleryCards fmt shuffled).Perm ((validRepos repos).map (mapRepo fmt)) := by
  have hsl : shuffled.length ≤ 6 := by rw [hperm.length_eq]; exact hlen
  have htake : shuffled.take 6 = shuffled := List.take_of_length_le hsl
  constructor
  · simp [galleryCards, htake, hperm.length_eq]
  · rw [galleryCards, htake]
    exact hperm.map (mapRepo fmt)

/-- C9 witness: the scenario batch has one qualifying repository and
yields exactly one card. -/
theorem gallery_count_below_cap_witness :
    (galleryCards id (validRepos scenarioRepos)).length = (validRepos scenarioRepos).length :=
  (gallery_count_below_cap id scenarioRepos (validRepos scenarioRepos)
    (List.Perm.refl _) (by decide)).1

/-- C5 counterexample: on the scenario batch the qualifying set is
exactly the vision-app repository, so the loader produces one card, not
zero — the spec's claim of zero cards is false. -/
theorem scenario_zero_cards_false :
    validRepos scenarioRepos = [repoVisionApp]
    ∧ (galleryCards id (validRepos scenarioRepos)).length = 1
    ∧ galleryCards id (validRepos scenarioRepos) ≠ [] := by
  refine ⟨by decide, by decide, by decide⟩

/-- C5 amended: for the scenario batch every shuffle yields exactly one
card, the one derived from the vision-app repository (the profile repo
is excluded by name, robo-arm by empty description). -/
theorem scenario_one_card (fmt : String → String) (shuffled : List GitHubRepo)
    (hperm : shuffled.Perm (validRepos scenarioRepos)) :
    galleryCards fmt shuffled = [mapRepo fmt repoVisionApp] := by
  have h1 : validRepos scenarioRepos = [repoVisionApp] := by decide
  rw [h1] at hperm
  have h2 : shuffled = [repoVisionApp] := List.perm_singleton.mp hperm
  rw [h2]
  rfl

/-- C5 amended witness: the identity shuffle of the scenario batch. -/
theorem scenario_one_card_witness :
    galleryCards id (validRepos scenarioRepos) = [mapRepo id repoVisionApp] :=
  scenario_one_card id (validRepos scenarioRepos) (List.Perm.refl _)

/-- C6. Card field derivation: the image URL is a deterministic function
of the canonical URL, the external link is the homepage when present
and otherwise the canonical URL, and the tags are the first four topics
when topics is non-empty and otherwise a single language-derived
fallback tag. -/
theorem card_field_derivation (fmt : String → String) (r1 r2 repo : GitHubRepo)
    (hurl : r1.html_url = r2.html_url) :
    (mapRepo fmt r1).image = (mapRepo fmt r2).image
    ∧ (mapRepo fmt repo).link = (if repo.homepage = "" then repo.html_url else repo.homepage)
    ∧ (mapRepo fmt repo).tags =
        (if repo.topics = [] then [if repo.language = "" then "Code" else repo.language]
         else repo.topics.take 4) := by
  refine ⟨by simp [mapRepo, hurl], ?_, ?_⟩
  · simp [mapRepo, jsOr_eq_ite]
  · cases htop : repo.topics with
    | nil => simp [mapRepo, jsOr_eq_ite, htop]
    | cons a as => simp [mapRepo, htop]

/-- C6 witness: two demo repositories sharing a canonical URL yield the
same image URL. -/
theorem card_field_derivation_witness :
    (mapRepo id demoRepoA).image = (mapRepo id demoRepoB).image :=
  (card_field_derivation id demoRepoA demoRepoB demoRepoA rfl).1

/-- C2. Chat fallback substitution: for every accepted submit, a failed
generation call (missing or empty credential, or any thrown error)
appends exactly one assistant message carrying the fixed connection
fallback; a successful call with non-empty text appends that text; a
successful call with empty text appends the fixed glitch apology
instead. -/
theorem chat_fallback_substitution (st : ChatState) (apiKey : Option String)
    (call : Except String String)
    (hin : jsTrim st.input ≠ "") (hfl : st.isTyping = false) :
    ((apiKey = none ∨ apiKey = some "" ∨ ∃ e, call = Except.error e) →
      (handleSend st apiKey call).messages
        = st.messages ++ [{ role := Role.user, text := jsTrim st.input },
                          { role := Role.ai, text := connectionFallback }])
    ∧ (∀ k text, apiKey = some k → k ≠ "" → call = Except.ok text → text ≠ "" →
      (handleSend st apiKey call).messages
        = st.messages ++ [{ role := Role.user, text := jsTrim st.input },
                          { role := Role.ai, text := text }])
    ∧ (∀ k, apiKey = some k → k ≠ "" → call = Except.ok "" →
      (handleSend st apiKey call).messages
        = st.messages ++ [{ role := Role.user, text := jsTrim st.input },
                          { role := Role.ai, text := glitchFallback }]) := by
  rw [handleSend_accepted hin hfl apiKey call]
  have he : "".isEmpty = true := rfl
  refine ⟨?_, ?_, ?_⟩
  · rintro (rfl | rfl | ⟨e, rfl⟩)
    · simp [resolveSend, acceptSend]
    · simp [resolveSend, acceptSend, he]
    · rcases apiKey with _ | k
      · simp [resolveSend, acceptSend]
      · rcases hk : k.isEmpty with _ | _
        · simp [resolveSend, acceptSend, hk]
        · simp [resolveSend, acceptSend, hk]
  · rintro k text rfl hk rfl htext
    simp [resolveSend, acceptSend, isEmpty_false_of_ne hk, isEmpty_false_of_ne htext]
  · rintro k rfl hk rfl
    simp [resolveSend, acceptSend, isEmpty_false_of_ne hk, he]

/-- C2 witness: from the seeded state with input hello and a thrown
network error, exactly the fixed connection fallback is appended. -/
theorem chat_fallback_substitution_witness :
    (handleSend (setChatInput chatInit "hello") none (Except.error "boom")).messages
      = (setChatInput chatInit "hello").messages
        ++ [{ role := Role.user, text := jsTrim (setChatInput chatInit "hello").input },
            { role := Role.ai, text := connectionFallback }] :=
  (chat_fallback_substitution (setChatInput chatInit "hello") none (Except.error "boom")
    (by decide) rfl).1 (Or.inl rfl)

/-- C4. Chat no-op guard: a submit with empty or whitespace-only input,
or issued while a request is pending, leaves the whole chat state (in
particular the transcript) unchanged and consults no outcome. -/
theorem chat_noop_guard (st : ChatState) (apiKey : Option String)
    (call : Except String String)
    (h : jsTrim st.input = "" ∨ st.isTyping = true) :
    handleSend st apiKey call = st := by
  have hc : ((jsTrim st.input).isEmpty || st.isTyping) = true := by
    rcases h with h | h
    · rw [h]; rfl
    · rw [h, Bool.or_true]
  simp only [handleSend, hc, if_true]

/-- C4 witness: submitting a whitespace-only input from the seeded state
is a no-op. -/
theorem chat_noop_guard_witness :
    handleSend (setChatInput chatInit "   ") none (Except.ok "ignored")
      = setChatInput chatInit "   " :=
  chat_noop_guard (setChatInput chatInit "   ") none (Except.ok "ignored")
    (Or.inl (by decide))

/-- C7. Transcript invariant: the transcript starts as exactly the one
seeded assistant message, the input setter never touches it, every send
leaves the existing transcript as a prefix (append-only, so the seed
stays first), and the concrete failing-send scenario from the seeded
state yields exactly the three messages seed, user hello, fallback. -/
theorem chat_transcript_invariant :
    chatInit.messages = [seedMessage]
    ∧ (∀ st s, (setChatInput st s).messages = st.messages)
    ∧ (∀ st apiKey call, st.messages <+: (handleSend st apiKey call).messages)
    ∧ (handleSend (setChatInput chatInit "hello") (some "key") (Except.error "network")).messages
        = [seedMessage, { role := Role.user, text := "hello" },
           { role := Role.ai, text := connectionFallback }] := by
  refine ⟨rfl, fun _ _ => rfl, ?_, by decide⟩
  intro st apiKey call
  by_cases h : ((jsTrim st.input).isEmpty || st.isTyping) = true
  · simp only [handleSend]
    rw [if_pos h]
  · simp only [handleSend]
    rw [if_neg h]
    rcases resolveSend_appends (acceptSend st) apiKey call with ⟨m, hm⟩
    rw [hm]
    show st.messages <+: (st.messages ++ [{ role := Role.user, text := jsTrim st.input }]) ++ [m]
    rw [List.append_assoc]
    exact List.prefix_append _ _

/-- C8. Pending cleanup: for every accepted submit the typing flag is
false once the action completes, on the success path and on every
failure path (missing credential included). -/
theorem chat_pending_cleanup (st : ChatState) (apiKey : Option String)
    (call : Except String String)
    (hin : jsTrim st.input ≠ "") (hfl : st.isTyping = false) :
    (handleSend st apiKey call).isTyping = false := by
  rw [handleSend_accepted hin hfl apiKey call]
  exact resolveSend_isTyping _ _ _

/-- C8 witness: the typing flag is cleared after a send that hits the
missing-credential short-circuit. -/
theorem chat_pending_cleanup_witness :
    (handleSend (setChatInput chatInit "hello") none (Except.ok "unused")).isTyping = false :=
  chat_pending_cleanup (setChatInput chatInit "hello") none (Except.ok "unused")
    (by decide) rfl

/-- C10. Implicit optimistic input clearing: an accepted submit clears
the input in its synchronous head (before the request resolves),
resolution never writes the input (so it is not restored on failure),
the final input is empty, and the appended user message carries the
trimmed input. -/
theorem chat_input_cleared (st : ChatState) (apiKey : Option String)
    (call : Except String String)
    (hin : jsTrim st.input ≠ "") (hfl : st.isTyping = false) :
    (acceptSend st).input = ""
    ∧ (acceptSend st).messages
        = st.messages ++ [{ role := Role.user, text := jsTrim st.input }]
    ∧ (∀ st2, (resolveSend st2 apiKey call).input = st2.input)
    ∧ (handleSend st apiKey call).input = "" := by
  refine ⟨rfl, rfl, fun st2 => resolveSend_input st2 apiKey call, ?_⟩
  rw [handleSend_accepted hin hfl apiKey call, resolveSend_input]
  rfl

/-- C10 witness: a failing send from input hi leaves the input empty. -/
theorem chat_input_cleared_witness :
    (handleSend (setChatInput chatInit "hi") none (Except.error "down")).input = "" :=
  (chat_input_cleared (setChatInput chatInit "hi") none (Except.error "down")
    (by decide) rfl).2.2.2

/-- C3 counterexample: on a failure response with no message the
displayed text is the generic failure string, which differs from the
network-error string used on a thrown network/parse error — there is no
single fixed network-error string covering both paths; and a failure
response with a present-but-empty message displays the generic failure
string, not the empty message verbatim. -/
theorem form_fallback_strings_differ :
    (handleSubmit demoContact (RelayOutcome.response false none)).errorMessage
      = genericFailureText
    ∧ (handleSubmit demoContact RelayOutcome.thrown).errorMessage = networkErrorText
    ∧ genericFailureText ≠ networkErrorText
    ∧ (handleSubmit demoContact (RelayOutcome.response false (some ""))).errorMessage
        = genericFailureText
    ∧ genericFailureText ≠ "" := by
  refine ⟨rfl, rfl, by decide, rfl, by decide⟩

/-- C3 amended. Form submit outcome: a success response transitions to
the success state and clears all fields; a failure response with a
non-empty message transitions to the error state displaying that
message with fields preserved; a failure response without a (truthy)
message displays the fixed generic failure string; a thrown
network/parse error displays the distinct fixed network-error string;
fields are preserved on every failure path. -/
theorem form_submit_outcome (st : ContactState) (msg : Option String) (m : String)
    (hm : m ≠ "") :
    handleSubmit st (RelayOutcome.response true msg)
      = { formState := FormStatus.success, errorMessage := "", fields := emptyFields }
    ∧ handleSubmit st (RelayOutcome.response false (some m))
      = { formState := FormStatus.error, errorMessage := m, fields := st.fields }
    ∧ handleSubmit st (RelayOutcome.response false none)
      = { formState := FormStatus.error, errorMessage := genericFailureText
        , fields := st.fields }
    ∧ handleSubmit st (RelayOutcome.response false (some ""))
      = { formState := FormStatus.error, errorMessage := genericFailureText
        , fields := st.fields }
    ∧ handleSubmit st RelayOutcome.thrown
      = { formState := FormStatus.error, errorMessage := networkErrorText
        , fields := st.fields } := by
  refine ⟨rfl, ?_, rfl, rfl, rfl⟩
  simp [handleSubmit, isEmpty_false_of_ne hm]

/-- C3 amended witness: a relay failure with message bad key shows that
message and keeps the demo fields. -/
theorem form_submit_outcome_witness :
    handleSubmit demoContact (RelayOutcome.response false (some "bad key"))
      = { formState := FormStatus.error, errorMessage := "bad key"
        , fields := demoContact.fields } :=
  (form_submit_outcome demoContact none "bad key" (by decide)).2.1
